import Mathlib

/-
Verification of the LDSC command-line configuration layer
(`src/ldsc/parsers/ldsc_parser.py`, class `LDSCconfig`) and of the
run-configuration checks the spec attaches to it.

The `argparse` declarations are embedded shallowly: a command line is a
record saying which options were supplied (`none` / `false` = absent), and
parsing applies, in the order `argparse` does, the mutually-exclusive-group
conflicts (raised while consuming arguments) and then the `required=True`
checks (raised at the end of parsing), falling back to each option's
declared default. `pathlib.Path` values are modelled by their string
representation; `float`-typed options by `ℚ`; `int`-typed options by `ℤ`.

Components of the repository that the parser refers to but that are not
part of the parser module (the `ld.ldscore` window-unit check, the
`ldsc.callbacks.ChecknBlocks` action body, the solver, harmonization and
liability steps) are modelled from the spec; each such definition carries a
doc comment saying so.
-/

namespace LDSC

/-- Paths (`pathlib.Path` values) are modelled by their string form. -/
abbrev PathStr := String

/-- The empty path, `Path("")`, the declared default of `--ref-ld-chr`. -/
def emptyPath : PathStr := ""

/-- Errors raised while turning a command line into a run configuration:
the `argparse` failures for the option declarations of `LDSCconfig`
(missing required options, mutually-exclusive-group conflicts) together
with the configuration errors checked right after parsing. -/
inductive ConfigError where
  | missingBfile
  | missingL2
  | extractAnnotConflict
  | perAllelePqExpConflict
  | refLdConflict
  | wLdConflict
  | badNBlocks
  | windowUnitConflict
deriving DecidableEq, Repr

/-- The options of the shared parent parser built in
`LDSCconfig.configure_parser` (`common_ldsc_parser`), as supplied on one
command line; `none` / `false` means the option was absent. Field order and
types follow the `add_argument` calls. -/
structure CommonCLI where
  ref_ld : Option String := none
  ref_ld_chr : Option PathStr := none
  w_ld : Option String := none
  w_ld_chr : Option PathStr := none
  overlap_annot : Bool := false
  print_coefficients : Bool := false
  frqfile : Option String := none
  frqfile_chr : Option String := none
  no_intercept : Bool := false
  intercept_h2 : Option String := none
  intercept_gencov : Option String := none
  M : Option String := none
  two_step : Option ℚ := none
  chisq_max : Option ℚ := none
  ref_ld_chr_cts : Option String := none
  print_all_cts : Bool := false
  print_cov : Bool := false
  print_delete_vals : Bool := false
  invert_anyway : Bool := false
  n_blocks : Option ℤ := none
  not_M_5_50 : Bool := false
  no_check_alleles : Bool := false
  samp_prev : Option String := none
  pop_prev : Option String := none
deriving DecidableEq, Repr

/-- The parsed namespace attributes contributed by `common_ldsc_parser`;
each field's default value below is the `default=` of its `add_argument`
call (`--ref-ld-chr` defaults to `Path("")`, `--n-blocks` to `200`, the
`store_true` flags to `False`, everything else to `None`). -/
structure CommonConfig where
  ref_ld : Option String := none
  ref_ld_chr : PathStr := emptyPath
  w_ld : Option String := none
  w_ld_chr : Option PathStr := none
  overlap_annot : Bool := false
  print_coefficients : Bool := false
  frqfile : Option String := none
  frqfile_chr : Option String := none
  no_intercept : Bool := false
  intercept_h2 : Option String := none
  intercept_gencov : Option String := none
  M : Option String := none
  two_step : Option ℚ := none
  chisq_max : Option ℚ := none
  ref_ld_chr_cts : Option String := none
  print_all_cts : Bool := false
  print_cov : Bool := false
  print_delete_vals : Bool := false
  invert_anyway : Bool := false
  n_blocks : ℤ := 200
  not_M_5_50 : Bool := false
  no_check_alleles : Bool := false
  samp_prev : Option String := none
  pop_prev : Option String := none
deriving DecidableEq, Repr

/-- The namespace produced from a conflict-free common command line:
supplied values pass through, absent options take their declared default. -/
def mkCommonConfig (c : CommonCLI) : CommonConfig :=
  { ref_ld := c.ref_ld
    ref_ld_chr := c.ref_ld_chr.getD emptyPath
    w_ld := c.w_ld
    w_ld_chr := c.w_ld_chr
    overlap_annot := c.overlap_annot
    print_coefficients := c.print_coefficients
    frqfile := c.frqfile
    frqfile_chr := c.frqfile_chr
    no_intercept := c.no_intercept
    intercept_h2 := c.intercept_h2
    intercept_gencov := c.intercept_gencov
    M := c.M
    two_step := c.two_step
    chisq_max := c.chisq_max
    ref_ld_chr_cts := c.ref_ld_chr_cts
    print_all_cts := c.print_all_cts
    print_cov := c.print_cov
    print_delete_vals := c.print_delete_vals
    invert_anyway := c.invert_anyway
    n_blocks := c.n_blocks.getD 200
    not_M_5_50 := c.not_M_5_50
    no_check_alleles := c.no_check_alleles
    samp_prev := c.samp_prev
    pop_prev := c.pop_prev }

/-- `argparse` processing of the common (parent) options: `--ref-ld` /
`--ref-ld-chr` and `--w-ld` / `--w-ld-chr` each form a
`mutually_exclusive_group(required=False)`, so supplying both members of a
group is a parse error and nothing here is required. -/
def parseCommonOpts (c : CommonCLI) : Except ConfigError CommonConfig :=
  if c.ref_ld.isSome && c.ref_ld_chr.isSome then .error .refLdConflict
  else if c.w_ld.isSome && c.w_ld_chr.isSome then .error .wLdConflict
  else .ok (mkCommonConfig c)

/-- The options of the `generate-ldscores` subcommand declared in
`LDSCconfig._add_subparsers` (`ldscore_parser`), as supplied on one command
line; `none` / `false` means the option was absent. -/
structure LdscoreCLI where
  bfile : Option String := none
  l2 : Bool := false
  keep : Option PathStr := none
  cts_bin : Option String := none
  cts_breaks : Option String := none
  cts_names : Option String := none
  thin_annot : Bool := false
  extract : Option String := none
  annot : Option String := none
  maf : Option ℚ := none
  ld_wind_snps : Option ℤ := none
  ld_wind_kb : Option ℚ := none
  ld_wind_cm : Option ℚ := none
  yes_really : Bool := false
  chunk_size : Option ℤ := none
  print_snps : Option String := none
  no_print_annot : Bool := false
  per_allele : Bool := false
  pq_exp : Option ℚ := none
deriving DecidableEq, Repr

/-- The parsed namespace attributes of the `generate-ldscores` subcommand;
each field's default value below is the `default=` of its `add_argument`
call (`--chunk-size` defaults to `50`, `--l2` is declared with
`default=False` even though it is also `required=True`). -/
structure LdscoreConfig where
  bfile : String
  l2 : Bool := false
  keep : Option PathStr := none
  cts_bin : Option String := none
  cts_breaks : Option String := none
  cts_names : Option String := none
  thin_annot : Bool := false
  extract : Option String := none
  annot : Option String := none
  maf : Option ℚ := none
  ld_wind_snps : Option ℤ := none
  ld_wind_kb : Option ℚ := none
  ld_wind_cm : Option ℚ := none
  yes_really : Bool := false
  chunk_size : ℤ := 50
  print_snps : Option String := none
  no_print_annot : Bool := false
  per_allele : Bool := false
  pq_exp : Option ℚ := none
deriving DecidableEq, Repr

/-- The namespace produced from a conflict-free `generate-ldscores` command
line with its required options present. -/
def mkLdscoreConfig (b : String) (c : LdscoreCLI) : LdscoreConfig :=
  { bfile := b
    l2 := c.l2
    keep := c.keep
    cts_bin := c.cts_bin
    cts_breaks := c.cts_breaks
    cts_names := c.cts_names
    thin_annot := c.thin_annot
    extract := c.extract
    annot := c.annot
    maf := c.maf
    ld_wind_snps := c.ld_wind_snps
    ld_wind_kb := c.ld_wind_kb
    ld_wind_cm := c.ld_wind_cm
    yes_really := c.yes_really
    chunk_size := c.chunk_size.getD 50
    print_snps := c.print_snps
    no_print_annot := c.no_print_annot
    per_allele := c.per_allele
    pq_exp := c.pq_exp }

/-- `argparse` processing of the `generate-ldscores` subcommand:
`--extract` / `--annot` and `--per-allele` / `--pq-exp` each form a
`mutually_exclusive_group(required=False)` (conflicts are raised while the
arguments are consumed), then `--bfile` and `--l2` are checked as
`required=True` at the end of parsing. The three `--ld-wind-*` options are
declared as plain independent options, not as a mutually exclusive group,
so the parser itself never rejects a combination of them. -/
def parseLdscoreCmd (c : LdscoreCLI) : Except ConfigError LdscoreConfig :=
  if c.extract.isSome && c.annot.isSome then .error .extractAnnotConflict
  else if c.per_allele && c.pq_exp.isSome then .error .perAllelePqExpConflict
  else
    match c.bfile with
    | none => .error .missingBfile
    | some b => if c.l2 then .ok (mkLdscoreConfig b c) else .error .missingL2

/-- A fully parsed `generate-ldscores` invocation: the subcommand's parser
has `parents=[common_ldsc_parser, parent_parser]`, so an invocation carries
both the common options and the subcommand options. -/
structure GenerateLdscoresConfig where
  common : CommonConfig
  cmd : LdscoreConfig
deriving DecidableEq, Repr

/-- Parse a whole `generate-ldscores` command line: the common (parent)
options together with the subcommand options. -/
def parseGenerateLdscores (common : CommonCLI) (cmd : LdscoreCLI) :
    Except ConfigError GenerateLdscoresConfig :=
  match parseCommonOpts common with
  | .error e => .error e
  | .ok cc =>
    match parseLdscoreCmd cmd with
    | .error e => .error e
    | .ok lc => .ok { common := cc, cmd := lc }

/-- A window size in exactly one of the three mutually exclusive units. -/
inductive WindowUnit where
  | snpCount (n : ℤ)
  | kb (x : ℚ)
  | cm (x : ℚ)
deriving DecidableEq, Repr

/-- Modelled from the spec: the window-unit validation that `ld.ldscore`
(not under `src/`; the parser only sets `func=ld.ldscore`) performs on the
parsed configuration before any computation starts — exactly one window
unit (SNP count, kb, or cM) must be active per run, and any other
combination of the `--ld-wind-*` options is a configuration error. -/
def activeWindowUnit (cfg : LdscoreConfig) : Except ConfigError WindowUnit :=
  match cfg.ld_wind_snps, cfg.ld_wind_kb, cfg.ld_wind_cm with
  | some n, none, none => .ok (.snpCount n)
  | none, some x, none => .ok (.kb x)
  | none, none, some x => .ok (.cm x)
  | _, _, _ => .error .windowUnitConflict

/-- How many of the three `--ld-wind-*` options a parsed configuration
carries. -/
def windOptionCount (cfg : LdscoreConfig) : ℕ :=
  (if cfg.ld_wind_snps.isSome then 1 else 0) +
    (if cfg.ld_wind_kb.isSome then 1 else 0) +
    (if cfg.ld_wind_cm.isSome then 1 else 0)

/-- Modelled from the spec: the body of the `ChecknBlocks` argparse action
(from `ldsc.callbacks`, not under `src/`) that the parser attaches to
`--n-blocks` — the jackknife block count must be at least 1 and must not
exceed the row count, and a violating value is reported as a configuration
error at the option boundary, before any computation starts. -/
def ChecknBlocks (n_blocks rowCount : ℤ) : Except ConfigError ℤ :=
  if 1 ≤ n_blocks ∧ n_blocks ≤ rowCount then .ok n_blocks
  else .error .badNBlocks

/-- Errors raised during the numeric run, after configuration. -/
inductive RunError where
  | singularDesign
  | invalidPrevalence
deriving DecidableEq, Repr

/-- A weighted-least-squares solve result; `approximate` is the flag set
when the solution came from a pseudo-inverse or regularized solve. -/
structure SolveResult where
  coef : List ℚ
  approximate : Bool
deriving DecidableEq, Repr

/-- Modelled from the spec: the handling of an ill-conditioned regression
matrix in the jackknife estimator (not under `src/`; the parser only
declares the `--invert-anyway` override). `exactSol` and `pseudoSol` stand
for the ordinary solve and for the pseudo-inverse (regularized) solve of
the same system: an ill-conditioned design fails with SingularDesign unless
the override is set, in which case the pseudo-inverse solve is returned
flagged as approximate. -/
def solveWLS (illConditioned invertAnyway : Bool)
    (exactSol pseudoSol : List ℚ) : Except RunError SolveResult :=
  if illConditioned then
    if invertAnyway then .ok { coef := pseudoSol, approximate := true }
    else .error .singularDesign
  else .ok { coef := exactSol, approximate := false }

/-- A summary-statistic record as seen by cross-trait harmonization:
`matchable` records whether the SNP's reference/alternate alleles can be
matched between the two studies. -/
structure RgSNP where
  id : ℕ
  matchable : Bool
deriving DecidableEq, Repr

/-- The outcome of allele-sign harmonization: the SNPs kept for the
regression and the surfaced count of AlleleMismatch drops. -/
structure HarmonizeResult where
  kept : List RgSNP
  mismatchCount : ℕ
deriving DecidableEq, Repr

/-- Modelled from the spec: cross-trait allele-sign harmonization (in the
`sumstats` module, not under `src/`; the parser only declares
`--no-check-alleles`). With allele checking enabled, every SNP whose
alleles cannot be matched raises an AlleleMismatch: the SNP is dropped and
the count of such drops is surfaced. With `--no-check-alleles` set the
check is skipped entirely, so no AlleleMismatch is raised. -/
def harmonizeAlleles (snps : List RgSNP) (noCheckAlleles : Bool) :
    HarmonizeResult :=
  if noCheckAlleles then { kept := snps, mismatchCount := 0 }
  else
    { kept := snps.filter (fun s => s.matchable)
      mismatchCount := (snps.filter (fun s => !s.matchable)).length }

/-- A heritability result: the observed-scale estimate, always present, and
the liability-scale conversion, which can fail on its own. -/
structure H2Result where
  observed : ℚ
  liability : Except RunError ℚ
deriving Repr

/-- Modelled from the spec: the liability-scale conversion step of the
heritability estimator (not under `src/`; the parser only declares
`--samp-prev` and `--pop-prev`). `convert` stands for the standard
ascertainment-correction formula applied to the observed-scale estimate.
The step validates that both prevalences lie in the open interval (0,1) and
fails with InvalidPrevalence otherwise; the failure is confined to the
liability value, the observed-scale estimate being returned either way. -/
def liabilityStep (convert : ℚ → ℚ → ℚ → ℚ) (obs sampPrev popPrev : ℚ) :
    H2Result :=
  if 0 < sampPrev ∧ sampPrev < 1 ∧ 0 < popPrev ∧ popPrev < 1 then
    { observed := obs, liability := .ok (convert obs sampPrev popPrev) }
  else { observed := obs, liability := .error .invalidPrevalence }

/-- Modelled from the spec: the per-category SNP counts the LD Score
Calculator emits alongside the scores (the calculator is not under `src/`):
`M` is the unweighted SNP count and `M_5_50` the count of SNPs whose minor
allele frequency is strictly between 0.05 and 0.50. -/
def emitMCounts (mafs : List ℚ) : ℕ × ℕ :=
  (mafs.length,
    (mafs.filter (fun p => decide (mkRat 1 20 < p ∧ p < mkRat 1 2))).length)

/-- Modelled from the spec: which SNP count the regression stage divides
by — by default the `.l2.M_5_50` count, and the plain `.l2.M` count exactly
when `--not-M-5-50` is set. -/
def normalizingM (not_M_5_50 : Bool) (M M_5_50 : ℕ) : ℕ :=
  if not_M_5_50 then M else M_5_50

/-! Concrete command lines used to instantiate the theorems below. -/

/-- A command line that supplies none of the common options. -/
def commonNone : CommonCLI := {}

/-- The common namespace with every option at its declared default. -/
def commonCfgDefault : CommonConfig := {}

/-- A concrete value for a path-valued option. -/
def pathA : String := "a"

/-- A minimal accepted `generate-ldscores` command line. -/
def cliMinimal : LdscoreCLI := { bfile := some pathA, l2 := true }

/-- The configuration `cliMinimal` parses to. -/
def cfgMinimal : GenerateLdscoresConfig :=
  { common := {}, cmd := { bfile := pathA, l2 := true } }

/-- A `generate-ldscores` command line supplying two window units. -/
def cliTwoWind : LdscoreCLI :=
  { bfile := some pathA, l2 := true
    ld_wind_snps := some 5, ld_wind_kb := some 10 }

/-- The configuration `cliTwoWind` parses to. -/
def cfgTwoWind : GenerateLdscoresConfig :=
  { common := {}
    cmd := { bfile := pathA, l2 := true
             ld_wind_snps := some 5, ld_wind_kb := some 10 } }

/-- A `generate-ldscores` command line supplying both `--per-allele` and
`--pq-exp`. -/
def cliPerAllelePq : LdscoreCLI :=
  { bfile := some pathA, l2 := true, per_allele := true, pq_exp := some 1 }

/-- A `generate-ldscores` command line supplying both `--extract` and
`--annot`. -/
def cliExtractAnnot : LdscoreCLI :=
  { bfile := some pathA, l2 := true
    extract := some pathA, annot := some pathA }

/-! Helper lemmas on the parse functions. -/

theorem parseCommonOpts_ok_elim {c : CommonCLI} {cc : CommonConfig}
    (h : parseCommonOpts c = .ok cc) : cc = mkCommonConfig c := by
  unfold parseCommonOpts at h
  split at h
  · cases h
  · split at h
    · cases h
    · cases h; rfl

theorem parseLdscoreCmd_ok_elim {c : LdscoreCLI} {lc : LdscoreConfig}
    (h : parseLdscoreCmd c = .ok lc) :
    ∃ b, c.bfile = some b ∧ c.l2 = true ∧ lc = mkLdscoreConfig b c := by
  unfold parseLdscoreCmd at h
  split at h
  · cases h
  · split at h
    · cases h
    · split at h
      · cases h
      · next b hb =>
          split at h
          · next hl => cases h; exact ⟨b, hb, hl, rfl⟩
          · cases h

theorem parseGenerateLdscores_ok_elim {common : CommonCLI}
    {cmd : LdscoreCLI} {cfg : GenerateLdscoresConfig}
    (h : parseGenerateLdscores common cmd = .ok cfg) :
    cfg.common = mkCommonConfig common ∧
      ∃ b, cmd.bfile = some b ∧ cmd.l2 = true ∧
        cfg.cmd = mkLdscoreConfig b cmd := by
  unfold parseGenerateLdscores at h
  split at h
  · cases h
  · next cc hcc =>
      split at h
      · cases h
      · next lc hlc =>
          cases h
          obtain ⟨b, hb, hl, h2⟩ := parseLdscoreCmd_ok_elim hlc
          exact ⟨parseCommonOpts_ok_elim hcc, b, hb, hl, h2⟩

theorem activeWindowUnit_cases (lc : LdscoreConfig) :
    (2 ≤ windOptionCount lc →
      activeWindowUnit lc = .error .windowUnitConflict) ∧
    (windOptionCount lc = 1 → ∃ u, activeWindowUnit lc = .ok u) := by
  rcases hs : lc.ld_wind_snps <;> rcases hk : lc.ld_wind_kb <;>
    rcases hc : lc.ld_wind_cm <;>
    simp [windOptionCount, activeWindowUnit, hs, hk, hc]

/-! The claims. -/

/-- C1: the argument parser passes the three `--ld-wind-*` options through
to the configuration without any mutual-exclusion check of its own, and the
window-unit validation applied to the parsed configuration before any
computation starts rejects every configuration supplying two or more window
units as a configuration error and accepts every configuration supplying
exactly one. -/
theorem window_unit_exclusive (common : CommonCLI) (cmd : LdscoreCLI)
    (cfg : GenerateLdscoresConfig)
    (h : parseGenerateLdscores common cmd = .ok cfg) :
    cfg.cmd.ld_wind_snps = cmd.ld_wind_snps ∧
    cfg.cmd.ld_wind_kb = cmd.ld_wind_kb ∧
    cfg.cmd.ld_wind_cm = cmd.ld_wind_cm ∧
    (2 ≤ windOptionCount cfg.cmd →
      activeWindowUnit cfg.cmd = .error .windowUnitConflict) ∧
    (windOptionCount cfg.cmd = 1 →
      ∃ u, activeWindowUnit cfg.cmd = .ok u) := by
  obtain ⟨-, b, hb, hl, hcmd⟩ := parseGenerateLdscores_ok_elim h
  rw [hcmd]
  exact ⟨rfl, rfl, rfl, (activeWindowUnit_cases _).1,
    (activeWindowUnit_cases _).2⟩

/-- Witness for C1: a command line with both `--ld-wind-snps` and
`--ld-wind-kb` is accepted by the parser, and the window-unit validation
then rejects the parsed configuration. -/
theorem window_unit_exclusive_witness :
    parseGenerateLdscores commonNone cliTwoWind = .ok cfgTwoWind ∧
    activeWindowUnit cfgTwoWind.cmd = .error .windowUnitConflict := by
  have h := window_unit_exclusive commonNone cliTwoWind cfgTwoWind rfl
  exact ⟨rfl, h.2.2.2.1 (by decide)⟩

/-- C9: a `generate-ldscores` invocation parses successfully only when both
`--bfile` and `--l2` are supplied, and since `--l2` is a required
`store_true` flag, every accepted configuration has `l2 = true`: its
declared default `False` is unreachable in an accepted configuration. -/
theorem l2_required_always_true (common : CommonCLI) (cmd : LdscoreCLI)
    (cfg : GenerateLdscoresConfig)
    (h : parseGenerateLdscores common cmd = .ok cfg) :
    cmd.bfile.isSome = true ∧ cmd.l2 = true ∧ cfg.cmd.l2 = true := by
  obtain ⟨-, b, hb, hl, hcmd⟩ := parseGenerateLdscores_ok_elim h
  refine ⟨by simp [hb], hl, ?_⟩
  rw [hcmd]
  simpa [mkLdscoreConfig] using hl

/-- Witness for C9: the minimal accepted command line parses and its
configuration has `l2 = true`. -/
theorem l2_required_always_true_witness :
    parseGenerateLdscores commonNone cliMinimal = .ok cfgMinimal ∧
    cfgMinimal.cmd.l2 = true :=
  ⟨rfl, (l2_required_always_true commonNone cliMinimal cfgMinimal rfl).2.2⟩

/-- C2: for a `generate-ldscores` invocation, supplying both `--per-allele`
and `--pq-exp` is rejected at configuration time as a
mutually-exclusive-group conflict, while supplying at most one of them is
accepted, given the required options are present and no other exclusive
group conflicts. -/
theorem per_allele_pq_exp_exclusive (common : CommonCLI) (cmd : LdscoreCLI)
    (hr : (common.ref_ld.isSome && common.ref_ld_chr.isSome) = false)
    (hw : (common.w_ld.isSome && common.w_ld_chr.isSome) = false) :
    ((cmd.per_allele && cmd.pq_exp.isSome) = true →
      (cmd.extract.isSome && cmd.annot.isSome) = false →
      parseGenerateLdscores common cmd
          = .error .perAllelePqExpConflict) ∧
    ((cmd.per_allele && cmd.pq_exp.isSome) = false →
      (cmd.extract.isSome && cmd.annot.isSome) = false →
      cmd.bfile.isSome = true → cmd.l2 = true →
      ∃ cfg, parseGenerateLdscores common cmd = .ok cfg) := by
  constructor
  · intro hpq hea
    simp [parseGenerateLdscores, parseCommonOpts, parseLdscoreCmd,
      hr, hw, hea, hpq]
  · intro hpq hea hb hl
    obtain ⟨b, hbs⟩ := Option.isSome_iff_exists.mp hb
    exact ⟨⟨mkCommonConfig common, mkLdscoreConfig b cmd⟩,
      by simp [parseGenerateLdscores, parseCommonOpts,
        parseLdscoreCmd, hr, hw, hea, hpq, hbs, hl]⟩

/-- Witness for C2: a command line with both `--per-allele` and `--pq-exp`
is rejected with the group conflict. -/
theorem per_allele_pq_exp_exclusive_witness :
    parseGenerateLdscores commonNone cliPerAllelePq
        = .error .perAllelePqExpConflict :=
  (per_allele_pq_exp_exclusive commonNone cliPerAllelePq rfl rfl).1 rfl rfl

/-- C8: `--extract` and `--annot` are mutually exclusive in
`generate-ldscores`: supplying both in one invocation is rejected at parse
time as a group conflict, while supplying either one alone (or neither) is
accepted, given the required options are present and no other exclusive
group conflicts. -/
theorem extract_annot_exclusive (common : CommonCLI) (cmd : LdscoreCLI)
    (hr : (common.ref_ld.isSome && common.ref_ld_chr.isSome) = false)
    (hw : (common.w_ld.isSome && common.w_ld_chr.isSome) = false) :
    ((cmd.extract.isSome && cmd.annot.isSome) = true →
      parseGenerateLdscores common cmd = .error .extractAnnotConflict) ∧
    ((cmd.extract.isSome && cmd.annot.isSome) = false →
      (cmd.per_allele && cmd.pq_exp.isSome) = false →
      cmd.bfile.isSome = true → cmd.l2 = true →
      ∃ cfg, parseGenerateLdscores common cmd = .ok cfg) := by
  constructor
  · intro hea
    simp [parseGenerateLdscores, parseCommonOpts, parseLdscoreCmd,
      hr, hw, hea]
  · intro hea hpq hb hl
    obtain ⟨b, hbs⟩ := Option.isSome_iff_exists.mp hb
    exact ⟨⟨mkCommonConfig common, mkLdscoreConfig b cmd⟩,
      by simp [parseGenerateLdscores, parseCommonOpts,
        parseLdscoreCmd, hr, hw, hea, hpq, hbs, hl]⟩

/-- Witness for C8: a command line with both `--extract` and `--annot` is
rejected with the group conflict. -/
theorem extract_annot_exclusive_witness :
    parseGenerateLdscores commonNone cliExtractAnnot
        = .error .extractAnnotConflict :=
  (extract_annot_exclusive commonNone cliExtractAnnot rfl rfl).1 rfl

/-- C10: `--ref-ld` and `--ref-ld-chr` are mutually exclusive (supplying
both is a parse error), and the declared defaults are asymmetric: with
neither supplied the parsed `ref_ld` is `none` while `ref_ld_chr` is the
empty path `Path("")`, and `--w-ld-chr`, when not supplied, parses to
`none`. -/
theorem ref_ld_group_defaults (common : CommonCLI) :
    ((common.ref_ld.isSome && common.ref_ld_chr.isSome) = true →
      parseCommonOpts common = .error .refLdConflict) ∧
    (common.ref_ld = none → common.ref_ld_chr = none →
      common.w_ld_chr = none →
      parseCommonOpts common = .ok (mkCommonConfig common) ∧
      (mkCommonConfig common).ref_ld = none ∧
      (mkCommonConfig common).ref_ld_chr = emptyPath ∧
      (mkCommonConfig common).w_ld_chr = none) := by
  constructor
  · intro hc
    simp [parseCommonOpts, hc]
  · intro h1 h2 h3
    refine ⟨by simp [parseCommonOpts, h2, h3], ?_, ?_, ?_⟩ <;>
      simp [mkCommonConfig, h1, h2, h3, emptyPath]

/-- Witness for C10: the empty common command line parses with `ref_ld`
`none`, `ref_ld_chr` the empty path and `w_ld_chr` `none`. -/
theorem ref_ld_group_defaults_witness :
    parseCommonOpts commonNone = .ok (mkCommonConfig commonNone) ∧
    (mkCommonConfig commonNone).ref_ld = none ∧
    (mkCommonConfig commonNone).ref_ld_chr = emptyPath ∧
    (mkCommonConfig commonNone).w_ld_chr = none :=
  (ref_ld_group_defaults commonNone).2 rfl rfl rfl

/-- C3: the `ChecknBlocks` check attached to `--n-blocks` accepts exactly
the block counts n with 1 ≤ n ≤ row count, reporting a configuration error
at the option boundary otherwise, and an invocation that does not supply
`--n-blocks` parses with the declared default of 200. -/
theorem n_blocks_check_and_default (n rows : ℤ) (common : CommonCLI)
    (cc : CommonConfig) (hn : common.n_blocks = none)
    (hp : parseCommonOpts common = .ok cc) :
    ((n < 1 ∨ rows < n) → ChecknBlocks n rows = .error .badNBlocks) ∧
    (1 ≤ n ∧ n ≤ rows → ChecknBlocks n rows = .ok n) ∧
    cc.n_blocks = 200 := by
  have hcc := parseCommonOpts_ok_elim hp
  refine ⟨?_, ?_, ?_⟩
  · intro hbad
    have hx : ¬(1 ≤ n ∧ n ≤ rows) := by omega
    simp [ChecknBlocks, hx]
  · intro hgood
    simp [ChecknBlocks, hgood]
  · rw [hcc]
    simp [mkCommonConfig, hn]

/-- Witness for C3: a block count of 0 is rejected, and the empty common
command line parses with `n_blocks = 200`. -/
theorem n_blocks_check_and_default_witness :
    ChecknBlocks 0 5 = .error .badNBlocks ∧
    commonCfgDefault.n_blocks = 200 := by
  have h := n_blocks_check_and_default 0 5 commonNone commonCfgDefault
    rfl rfl
  exact ⟨h.1 (by decide), h.2.2⟩

/-- C4: `--invert-anyway` parses to `false` by default; an ill-conditioned
design then fails with SingularDesign for every input, and with the
override set the pseudo-inverse solve is returned flagged as approximate
instead of failing. -/
theorem singular_design_override (common : CommonCLI) (cc : CommonConfig)
    (hi : common.invert_anyway = false)
    (hp : parseCommonOpts common = .ok cc)
    (exactSol pseudoSol : List ℚ) :
    cc.invert_anyway = false ∧
    solveWLS true cc.invert_anyway exactSol pseudoSol
        = .error .singularDesign ∧
    solveWLS true true exactSol pseudoSol
        = .ok { coef := pseudoSol, approximate := true } := by
  have hcc := parseCommonOpts_ok_elim hp
  have h1 : cc.invert_anyway = false := by
    rw [hcc]; simpa [mkCommonConfig] using hi
  exact ⟨h1, by simp [solveWLS, h1], by simp [solveWLS]⟩

/-- Witness for C4: with the default common command line, an
ill-conditioned solve fails; with the override, it returns the
pseudo-inverse solution flagged approximate. -/
theorem singular_design_override_witness :
    commonCfgDefault.invert_anyway = false ∧
    solveWLS true commonCfgDefault.invert_anyway [] [1]
        = .error .singularDesign ∧
    solveWLS true true [] [1] = .ok { coef := [1], approximate := true } :=
  singular_design_override commonNone commonCfgDefault rfl rfl [] [1]

/-- C5: with the parsed default `no_check_alleles = false`, harmonization
raises an AlleleMismatch for every SNP whose alleles cannot be matched —
such a SNP is dropped while every matchable SNP is kept, and the number of
drops is surfaced as a count — and with `--no-check-alleles` set no
AlleleMismatch is raised: every SNP is kept and the count is zero. -/
theorem allele_mismatch_drops (snps : List RgSNP) (common : CommonCLI)
    (cc : CommonConfig) (hn : common.no_check_alleles = false)
    (hp : parseCommonOpts common = .ok cc) :
    cc.no_check_alleles = false ∧
    (∀ s : RgSNP, s.matchable = false →
      s ∉ (harmonizeAlleles snps cc.no_check_alleles).kept) ∧
    (∀ s ∈ snps, s.matchable = true →
      s ∈ (harmonizeAlleles snps cc.no_check_alleles).kept) ∧
    (harmonizeAlleles snps cc.no_check_alleles).mismatchCount
        = (snps.filter (fun s => !s.matchable)).length ∧
    harmonizeAlleles snps true = { kept := snps, mismatchCount := 0 } := by
  have hcc := parseCommonOpts_ok_elim hp
  have h1 : cc.no_check_alleles = false := by
    rw [hcc]; simpa [mkCommonConfig] using hn
  refine ⟨h1, ?_, ?_, ?_, ?_⟩
  · intro s hs hmem
    rw [h1] at hmem
    simp only [harmonizeAlleles, Bool.false_eq_true, if_false,
      List.mem_filter] at hmem
    rw [hs] at hmem
    exact absurd hmem.2 (by simp)
  · intro s hmem hs
    rw [h1]
    simp only [harmonizeAlleles, Bool.false_eq_true, if_false,
      List.mem_filter]
    exact ⟨hmem, hs⟩
  · simp [h1, harmonizeAlleles]
  · rfl

/-- Witness for C5: on a two-SNP study pair with one unmatchable SNP, the
unmatchable SNP is dropped and counted, and with `--no-check-alleles` the
pair passes through untouched. -/
theorem allele_mismatch_drops_witness :
    RgSNP.mk 1 false ∉
      (harmonizeAlleles [⟨0, true⟩, ⟨1, false⟩]
        commonCfgDefault.no_check_alleles).kept ∧
    (harmonizeAlleles [⟨0, true⟩, ⟨1, false⟩]
        commonCfgDefault.no_check_alleles).mismatchCount = 1 ∧
    harmonizeAlleles [⟨0, true⟩, ⟨1, false⟩] true
        = { kept := [⟨0, true⟩, ⟨1, false⟩], mismatchCount := 0 } := by
  have h := allele_mismatch_drops [⟨0, true⟩, ⟨1, false⟩] commonNone
    commonCfgDefault rfl rfl
  exact ⟨h.2.1 ⟨1, false⟩ rfl, by decide, h.2.2.2.2⟩

/-- C6: the liability-scale conversion fails with InvalidPrevalence
whenever the sample or the population prevalence lies outside the open
interval (0,1), succeeds when both lie inside, and in every case the
observed-scale estimate is still returned. -/
theorem invalid_prevalence_confined (convert : ℚ → ℚ → ℚ → ℚ)
    (obs sp pp : ℚ) :
    (liabilityStep convert obs sp pp).observed = obs ∧
    (¬(0 < sp ∧ sp < 1) ∨ ¬(0 < pp ∧ pp < 1) →
      (liabilityStep convert obs sp pp).liability
          = .error .invalidPrevalence) ∧
    ((0 < sp ∧ sp < 1) ∧ (0 < pp ∧ pp < 1) →
      (liabilityStep convert obs sp pp).liability
          = .ok (convert obs sp pp)) := by
  have hiff : (0 < sp ∧ sp < 1 ∧ 0 < pp ∧ pp < 1) ↔
      ((0 < sp ∧ sp < 1) ∧ (0 < pp ∧ pp < 1)) := by tauto
  unfold liabilityStep
  by_cases h : (0 < sp ∧ sp < 1) ∧ (0 < pp ∧ pp < 1)
  · rw [if_pos (hiff.mpr h)]
    refine ⟨rfl, ?_, fun _ => rfl⟩
    intro hbad
    rcases hbad with hb | hb
    · exact absurd h.1 hb
    · exact absurd h.2 hb
  · rw [if_neg (fun hc => h (hiff.mp hc))]
    exact ⟨rfl, fun _ => rfl, fun hg => absurd hg h⟩

/-- Witness for C6: a sample prevalence of 2 makes the liability step fail
with InvalidPrevalence while the observed-scale estimate 3 is returned. -/
theorem invalid_prevalence_confined_witness :
    (liabilityStep (fun _ _ _ => 0) 3 2 1).observed = 3 ∧
    (liabilityStep (fun _ _ _ => 0) 3 2 1).liability
        = .error .invalidPrevalence := by
  have h := invalid_prevalence_confined (fun _ _ _ => 0) 3 2 1
  exact ⟨h.1, h.2.1 (Or.inl (by decide))⟩

/-- C7: per category the calculator emits both M, the unweighted SNP count,
and M_5_50, the number of SNPs with minor allele frequency strictly between
0.05 and 0.50; with the parsed default `not_M_5_50 = false` the regression
stage normalizes by M_5_50, and it uses the plain M count exactly when
`--not-M-5-50` is set. -/
theorem m_5_50_counts (mafs : List ℚ) (common : CommonCLI)
    (cc : CommonConfig) (hn : common.not_M_5_50 = false)
    (hp : parseCommonOpts common = .ok cc) (M M_5_50 : ℕ) :
    (emitMCounts mafs).1 = mafs.length ∧
    (emitMCounts mafs).2
        = mafs.countP (fun p => decide (mkRat 1 20 < p ∧ p < mkRat 1 2)) ∧
    cc.not_M_5_50 = false ∧
    normalizingM cc.not_M_5_50 M M_5_50 = M_5_50 ∧
    normalizingM true M M_5_50 = M := by
  have hcc := parseCommonOpts_ok_elim hp
  have h1 : cc.not_M_5_50 = false := by
    rw [hcc]; simpa [mkCommonConfig] using hn
  refine ⟨rfl, ?_, h1, by simp [normalizingM, h1], by simp [normalizingM]⟩
  exact (List.countP_eq_length_filter _ _).symm

/-- Witness for C7: for MAFs {0.1, 2} the emitted counts are M = 2 and
M_5_50 = 1, and the default normalization picks M_5_50. -/
theorem m_5_50_counts_witness :
    (emitMCounts [mkRat 1 10, 2]).1 = 2 ∧
    (emitMCounts [mkRat 1 10, 2]).2 = 1 ∧
    normalizingM commonCfgDefault.not_M_5_50 7 5 = 5 ∧
    normalizingM true 7 5 = 7 := by
  have h := m_5_50_counts [mkRat 1 10, 2] commonNone commonCfgDefault
    rfl rfl 7 5
  exact ⟨h.1, h.2.1.trans (by decide), h.2.2.2.1, h.2.2.2.2⟩

end LDSC
